import Mathlib

set_option autoImplicit false

/- Shallow embedding of `app/services/conversation_engine.py` together with the
request models of `app/models/schemas.py` from the ScamurAI customer chatbot.

Modelling conventions:
* Python dictionaries are association lists whose insert updates an existing
  key in place and otherwise appends, exactly like dict assignment; `del`
  removes the key.  Real dicts never hold a key twice, so store lemmas that
  need it take a key-uniqueness hypothesis.
* The OpenAI client is an oracle from the call arguments that distinguish the
  two call sites (model name, prompt, max_tokens) to either a raised
  exception (`Except.error ()`) or the returned content string
  `response.choices[0].message.content`.  The temperature argument (a float
  constant at each call site) plays no role in any property and is omitted.
* In-place mutation of the session object held in the store is modelled by
  explicit state passing: each engine operation returns the updated store
  together with its response value.
* `time.time()` values are passed in explicitly and modelled as integers,
  keeping only their ordered-arithmetic structure. -/

/-- Python `str.strip()`: drop leading and trailing whitespace. -/
def pythonStrip (s : String) : String :=
  String.mk (((s.data.dropWhile Char.isWhitespace).reverse.dropWhile Char.isWhitespace).reverse)

/-- Python `str.lower()` (ASCII case folding, as applied to the model verdict). -/
def pythonLower (s : String) : String :=
  String.mk (s.data.map Char.toLower)

/-- Schema `FraudQuestion` from `app/models/schemas.py`. -/
structure FraudQuestion where
  id : String
  question : String
  validation : String
  deriving Repr, DecidableEq

/-- Schema `ConversationSession` from `app/models/schemas.py`.  `answers` is a dict from
question id to answer text; `start_time` is the creation timestamp. -/
structure ConversationSession where
  session_id : String
  current_question_index : Nat := 0
  answers : List (String × String) := []
  retry_count : Nat := 0
  completed : Bool := false
  start_time : Int
  deriving Repr, DecidableEq

/-- Schema `ChatStartResponse` from `app/models/schemas.py`. -/
structure ChatStartResponse where
  success : Bool
  message : String
  session_id : Option String := none
  deriving Repr, DecidableEq

/-- Schema `ChatResponseResponse` from `app/models/schemas.py`. -/
structure ChatResponseResponse where
  success : Bool
  message : String
  completed : Bool := false
  fraud_analysis : Option String := none
  deriving Repr, DecidableEq

/-- Pydantic validation of `ChatStartRequest`: `session_id` is a required
string field with no further constraint (`Field(...)`), so any provided
string, including the empty one, is accepted. -/
def chatStartRequest_validates (session_id : Option String) : Bool :=
  session_id.isSome

/-- Pydantic validation of `ChatResponseRequest`: `session_id` is required with
no constraint; `message` is required with `min_length=1`. -/
def chatResponseRequest_validates (session_id : Option String) (message : Option String) : Bool :=
  session_id.isSome &&
    (match message with
     | some m => decide (1 ≤ m.length)
     | none => false)

/-- The oracle standing in for the injected OpenAI client: arguments are the
model name, the prompt (content of the single user message) and `max_tokens`;
the result is the content string of the reply, or `error ()` when the call
raises. -/
structure OpenAIClient where
  create : String → String → Nat → Except Unit String

/-- The module-level `FRAUD_QUESTIONS` catalog (4 questions, fixed order). -/
def FRAUD_QUESTIONS : List FraudQuestion :=
  [ { id := "payment_recipient"
    , question := "Who are you making this payment to? Please provide the name of the person, organization, or company."
    , validation := "payment_recipient" }
  , { id := "purpose_of_payment"
    , question := "What is the purpose of this payment? Please describe what you are paying for (service, product, investment, etc.)"
    , validation := "purpose_of_payment" }
  , { id := "source_of_payment_link"
    , question := "Where did you get the payment link or payment instructions from? Please share the source (email, website, text message, social media post, etc.)"
    , validation := "source_of_payment_link" }
  , { id := "website_verification"
    , question := "Please provide the website URL or platform where you are making this payment, or describe how you are accessing the payment page."
    , validation := "website_verification" } ]

/-- Python list indexing `FRAUD_QUESTIONS[i]`.  Out-of-range access would
raise `IndexError` in Python; it is unreachable in every engine path (guarded
by `completed` / the length check), and is modelled by an inert default so the
embedding stays total. -/
def questionAt (i : Nat) : FraudQuestion :=
  (FRAUD_QUESTIONS.get? i).getD { id := "", question := "", validation := "" }

/-- Dict lookup: first (and in a real dict, only) binding of the key. -/
def alistGet {α : Type} : List (String × α) → String → Option α
  | [], _ => none
  | (k, v) :: rest, key => if k == key then some v else alistGet rest key

/-- Dict assignment `d[key] = v`: overwrite in place, else append. -/
def alistInsert {α : Type} : List (String × α) → String → α → List (String × α)
  | [], key, v => [(key, v)]
  | (k, w) :: rest, key, v =>
      if k == key then (key, v) :: rest else (k, w) :: alistInsert rest key v

/-- Dict deletion `del d[key]`. -/
def alistErase {α : Type} (d : List (String × α)) (key : String) : List (String × α) :=
  d.filter (fun p => !(p.1 == key))

/-- Python `d.get(key, default)`. -/
def alistGetD {α : Type} (d : List (String × α)) (key : String) (default : α) : α :=
  (alistGet d key).getD default

/-- The engine state: `self.sessions`, a dict from session id to session. -/
abbrev SessionStore : Type := List (String × ConversationSession)

/-- Engine method `start_session`: unconditionally build a fresh session,
store it under `session_id` (overwriting any previous one) and return the
first question.  `now` stands for the `time.time()` call. -/
def start_session (sessions : SessionStore) (session_id : String) (now : Int) :
    SessionStore × ChatStartResponse :=
  let session : ConversationSession :=
    { session_id := session_id
    , current_question_index := 0
    , answers := []
    , retry_count := 0
    , completed := false
    , start_time := now }
  ( alistInsert sessions session_id session
  , { success := true
    , message := (questionAt 0).question
    , session_id := some session_id } )

/-- The prompt built by `_validate_response` (f-string, newlines explicit). -/
def validation_prompt (question : FraudQuestion) (user_message : String) : String :=
  "\nEvaluate if this user response is relevant to the fraud detection question asked.\n\nQuestion context: "
    ++ question.validation
    ++ "\nQuestion: " ++ question.question
    ++ "\nUser response: " ++ user_message
    ++ "\n\nReturn only \"true\" if the response is relevant and provides meaningful information related to the question, or \"false\" if it\x27s off-topic, too vague, or doesn\x27t address the question.\n\nConsider these as VALID responses:\n- Specific names, organizations, or entities for recipient questions\n- Clear descriptions of services, products, or purposes for purpose questions\n- Specific sources like \"email from company X\", \"text message\", \"website link\", \"social media post\" for source of payment link questions\n- URLs or descriptions of websites/platforms for website verification questions\n\nConsider these as INVALID responses:\n- Generic responses like \"yes\", \"no\", \"maybe\", \"I don\x27t know\"\n- Single words that don\x27t provide context\n- Completely off-topic responses\n- Responses that ask questions back instead of answering\n"

/-- Engine method `_validate_response`: local length pre-filter, then the
external verdict; any exception from the call is caught and the response is
accepted (fail-open). -/
def _validate_response (client : OpenAIClient) (user_message : String)
    (question : FraudQuestion) : Bool :=
  if user_message == "" || (pythonStrip user_message).length < 3 then
    false
  else
    match client.create "gpt-3.5-turbo" (validation_prompt question user_message) 10 with
    | Except.ok content => pythonLower (pythonStrip content) == "true"
    | Except.error _ => true

/-- The prompt built by `_perform_fraud_analysis`, with `answers.get(key,
\x27Not provided\x27)` placeholders. -/
def analysis_prompt (answers : List (String × String)) : String :=
  "\nYou are a fraud detection expert. Analyze these payment details and provide a risk assessment.\n\nPayment Details:\n- Recipient: "
    ++ alistGetD answers "payment_recipient" "Not provided"
    ++ "\n- Purpose: " ++ alistGetD answers "purpose_of_payment" "Not provided"
    ++ "\n- Source of Payment Link: " ++ alistGetD answers "source_of_payment_link" "Not provided"
    ++ "\n- Website/Platform: " ++ alistGetD answers "website_verification" "Not provided"
    ++ "\n\nProvide a clear, concise fraud risk assessment (LOW, MEDIUM, or HIGH) with a brief explanation of key risk factors or positive indicators. Keep your response under 150 words and focus on actionable insights for the user.\n\nFormat your response as:\nRISK LEVEL: [LOW/MEDIUM/HIGH]\nANALYSIS: [Your assessment and recommendations]\n"

/-- The verbatim fallback assessment returned when the analysis call raises. -/
def fraud_analysis_fallback : String :=
  "RISK LEVEL: UNKNOWN\nANALYSIS: Unable to complete fraud analysis due to technical issues. Please verify payment details independently and consult with your bank if you have concerns."

/-- Engine method `_perform_fraud_analysis`: external risk assessment,
with the fixed fallback text on any exception. -/
def _perform_fraud_analysis (client : OpenAIClient) (answers : List (String × String)) : String :=
  match client.create "gpt-3.5-turbo" (analysis_prompt answers) 200 with
  | Except.ok content => pythonStrip content
  | Except.error _ => fraud_analysis_fallback

/-- Engine method `_get_question_context`: the `contexts` dict lookup with
default "this question". -/
def _get_question_context (question : FraudQuestion) : String :=
  alistGetD
    [ ("payment_recipient", "who you are paying")
    , ("purpose_of_payment", "what you are paying for")
    , ("source_of_payment_link", "where you got the payment link from")
    , ("website_verification", "the website or platform you are using") ]
    question.id "this question"

/-- Engine method `_move_to_next_question`: bump the index; when it
reaches the catalog length, mark the session complete and attach the fraud
analysis, otherwise return the next question text. -/
def _move_to_next_question (client : OpenAIClient) (session : ConversationSession) :
    ConversationSession × ChatResponseResponse :=
  let session := { session with current_question_index := session.current_question_index + 1 }
  if session.current_question_index ≥ FRAUD_QUESTIONS.length then
    let session := { session with completed := true }
    let fraud_analysis := _perform_fraud_analysis client session.answers
    ( session
    , { success := true
      , message := "Thank you for answering all the questions. Let me analyze this information for potential fraud indicators."
      , completed := true
      , fraud_analysis := some fraud_analysis } )
  else
    ( session
    , { success := true
      , message := (questionAt session.current_question_index).question } )

/-- Engine method `process_response`: session lookup, completed guard,
validation, retry bookkeeping, and advance.  The updated session is written
back to the store (in Python the session object in the dict is mutated in
place). -/
def process_response (client : OpenAIClient) (sessions : SessionStore)
    (session_id user_message : String) : SessionStore × ChatResponseResponse :=
  match alistGet sessions session_id with
  | none =>
      ( sessions
      , { success := false
        , message := "Session not found. Please refresh and start again." } )
  | some session =>
      if session.completed then
        ( sessions
        , { success := true
          , message := "Thank you! Your fraud assessment has been completed."
          , completed := true } )
      else
        let current_question := questionAt session.current_question_index
        let is_valid_response := _validate_response client user_message current_question
        if !is_valid_response then
          let session := { session with retry_count := session.retry_count + 1 }
          if session.retry_count ≥ 3 then
            let session :=
              { session with
                retry_count := 0
              , answers := alistInsert session.answers current_question.id
                  "User unable to provide relevant answer after multiple attempts" }
            let moved := _move_to_next_question client session
            (alistInsert sessions session_id moved.1, moved.2)
          else
            ( alistInsert sessions session_id session
            , { success := true
              , message := "I need a more specific answer about "
                  ++ _get_question_context current_question
                  ++ ". Could you please provide more details?" } )
        else
          let session :=
            { session with
              answers := alistInsert session.answers current_question.id user_message
            , retry_count := 0 }
          let moved := _move_to_next_question client session
          (alistInsert sessions session_id moved.1, moved.2)

/-- Engine method `get_session`: pure lookup. -/
def get_session (sessions : SessionStore) (session_id : String) : Option ConversationSession :=
  alistGet sessions session_id

/-- Engine method `cleanup_old_sessions`: collect the ids of sessions
started more than an hour before `now`, then delete them.  The Python method
returns `None`; only the updated store is the result here. -/
def cleanup_old_sessions (sessions : SessionStore) (now : Int) : SessionStore :=
  let one_hour_ago := now - 60 * 60
  let sessions_to_remove :=
    (sessions.filter (fun p => decide (p.2.start_time < one_hour_ago))).map Prod.fst
  sessions_to_remove.foldl (fun s session_id => alistErase s session_id) sessions

/- Test doubles for the external client, mirroring the deterministic
stand-ins used by the repository's test suite. -/

/-- A client whose every call raises. -/
def failingClient : OpenAIClient := ⟨fun _ _ _ => Except.error ()⟩

/-- A client whose every call returns the verdict string "true". -/
def approvingClient : OpenAIClient := ⟨fun _ _ _ => Except.ok "true"⟩

/-- A client whose every call returns the verdict string "false". -/
def rejectingClient : OpenAIClient := ⟨fun _ _ _ => Except.ok "false"⟩

/-- A client that answers validation calls with "true" but raises on the
analysis call (distinguished by its `max_tokens=200` argument). -/
def analysisFailingClient : OpenAIClient :=
  ⟨fun _ _ max_tokens => if max_tokens == 200 then Except.error () else Except.ok "true"⟩

/-- The catalog holds exactly 4 questions. -/
theorem FRAUD_QUESTIONS_length : FRAUD_QUESTIONS.length = 4 := rfl

theorem alistGet_insert_self {α : Type} (d : List (String × α)) (k : String) (v : α) :
    alistGet (alistInsert d k v) k = some v := by
  induction d with
  | nil => simp [alistInsert, alistGet]
  | cons p rest ih =>
      obtain ⟨q, w⟩ := p
      cases hq : q == k with
      | true => simp [alistInsert, alistGet, hq]
      | false => simp [alistInsert, alistGet, hq, ih]

theorem alistGet_mem {α : Type} {d : List (String × α)} {k : String} {v : α}
    (h : alistGet d k = some v) : (k, v) ∈ d := by
  induction d with
  | nil => simp [alistGet] at h
  | cons p rest ih =>
      obtain ⟨q, w⟩ := p
      cases hq : q == k with
      | true =>
          rw [alistGet, hq] at h
          simp at h
          simp [eq_of_beq hq, h]
      | false =>
          rw [alistGet, hq] at h
          simp at h
          exact List.mem_cons_of_mem _ (ih h)

theorem alistGet_of_nodup {α : Type} {d : List (String × α)} {k : String} {v : α}
    (hnd : (d.map Prod.fst).Nodup) (h : (k, v) ∈ d) : alistGet d k = some v := by
  induction d with
  | nil => simp at h
  | cons p rest ih =>
      obtain ⟨q, w⟩ := p
      simp only [List.map_cons, List.nodup_cons] at hnd
      rcases List.mem_cons.mp h with hhead | htail
      · cases hhead
        simp [alistGet]
      · have hk : k ∈ rest.map Prod.fst := List.mem_map.mpr ⟨(k, v), htail, rfl⟩
        have hne : (q == k) = false := by
          apply beq_eq_false_iff_ne.mpr
          intro hqk
          exact hnd.1 (hqk ▸ hk)
        rw [alistGet, hne]
        exact ih hnd.2 htail

theorem alistGet_erase_self {α : Type} (d : List (String × α)) (k : String) :
    alistGet (alistErase d k) k = none := by
  induction d with
  | nil => simp [alistErase, alistGet]
  | cons p rest ih =>
      obtain ⟨q, w⟩ := p
      cases hq : q == k with
      | true => simpa [alistErase, List.filter, hq] using ih
      | false =>
          simp only [alistErase, List.filter, hq] at ih ⊢
          simpa [alistGet, hq] using ih

theorem alistGet_erase_ne {α : Type} (d : List (String × α)) {k key : String}
    (h : key ≠ k) : alistGet (alistErase d k) key = alistGet d key := by
  induction d with
  | nil => simp [alistErase, alistGet]
  | cons p rest ih =>
      obtain ⟨q, w⟩ := p
      cases hq : q == k with
      | true =>
          have hqkey : (q == key) = false := by
            apply beq_eq_false_iff_ne.mpr
            intro hqk
            exact h (hqk.symm.trans (eq_of_beq hq))
          simp only [alistErase, List.filter, hq, Bool.not_true] at ih ⊢
          rw [alistGet, hqkey] at *
          exact ih
      | false =>
          simp only [alistErase, List.filter, hq, Bool.not_false] at ih ⊢
          rw [alistGet, alistGet]
          cases hqkey : q == key with
          | true => rfl
          | false => exact ih

theorem alistGet_foldl_erase {α : Type} (ids : List String) :
    ∀ (d : List (String × α)) (k : String),
      alistGet (ids.foldl alistErase d) k = if k ∈ ids then none else alistGet d k := by
  induction ids with
  | nil => intro d k; simp
  | cons i ids ih =>
      intro d k
      rw [List.foldl_cons, ih]
      by_cases hmem : k ∈ ids
      · simp [hmem]
      · by_cases hk : k = i
        · subst hk
          simp [hmem, alistGet_erase_self]
        · simp [hmem, hk, alistGet_erase_ne d hk]

/- Characterizations of the two branches of `_move_to_next_question` and of
the four reachable paths of `process_response`. -/

theorem move_to_next_of_lt (client : OpenAIClient) (s : ConversationSession)
    (h : s.current_question_index + 1 < 4) :
    _move_to_next_question client s =
      ({ s with current_question_index := s.current_question_index + 1 },
       { success := true
       , message := (questionAt (s.current_question_index + 1)).question }) := by
  have hlen : FRAUD_QUESTIONS.length = 4 := rfl
  simp only [_move_to_next_question]
  rw [if_neg]
  omega

theorem move_to_next_of_complete (client : OpenAIClient) (s : ConversationSession)
    (h : 4 ≤ s.current_question_index + 1) :
    _move_to_next_question client s =
      ({ s with current_question_index := s.current_question_index + 1, completed := true },
       { success := true
       , message := "Thank you for answering all the questions. Let me analyze this information for potential fraud indicators."
       , completed := true
       , fraud_analysis := some (_perform_fraud_analysis client s.answers) }) := by
  have hlen : FRAUD_QUESTIONS.length = 4 := rfl
  simp only [_move_to_next_question]
  rw [if_pos]
  omega

theorem process_response_of_missing (client : OpenAIClient) (store : SessionStore)
    (sid msg : String) (h : alistGet store sid = none) :
    process_response client store sid msg =
      (store,
       { success := false
       , message := "Session not found. Please refresh and start again." }) := by
  simp [process_response, h]

theorem process_response_of_completed (client : OpenAIClient) (store : SessionStore)
    (sid msg : String) (s : ConversationSession)
    (h : alistGet store sid = some s) (hc : s.completed = true) :
    process_response client store sid msg =
      (store,
       { success := true
       , message := "Thank you! Your fraud assessment has been completed."
       , completed := true }) := by
  simp [process_response, h, hc]

theorem process_response_of_invalid_retry (client : OpenAIClient) (store : SessionStore)
    (sid msg : String) (s : ConversationSession)
    (h : alistGet store sid = some s) (hc : s.completed = false)
    (hv : _validate_response client msg (questionAt s.current_question_index) = false)
    (hr : s.retry_count + 1 < 3) :
    process_response client store sid msg =
      (alistInsert store sid { s with retry_count := s.retry_count + 1 },
       { success := true
       , message := "I need a more specific answer about "
           ++ _get_question_context (questionAt s.current_question_index)
           ++ ". Could you please provide more details?" }) := by
  have hr3 : ¬ (s.retry_count + 1 ≥ 3) := by omega
  simp [process_response, h, hc, hv, hr3]

theorem process_response_of_invalid_exhausted (client : OpenAIClient) (store : SessionStore)
    (sid msg : String) (s : ConversationSession)
    (h : alistGet store sid = some s) (hc : s.completed = false)
    (hv : _validate_response client msg (questionAt s.current_question_index) = false)
    (hr : 3 ≤ s.retry_count + 1) :
    process_response client store sid msg =
      (alistInsert store sid
        (_move_to_next_question client
          { s with
            retry_count := 0
          , answers := alistInsert s.answers (questionAt s.current_question_index).id
              "User unable to provide relevant answer after multiple attempts" }).1,
       (_move_to_next_question client
         { s with
           retry_count := 0
         , answers := alistInsert s.answers (questionAt s.current_question_index).id
             "User unable to provide relevant answer after multiple attempts" }).2) := by
  simp [process_response, h, hc, hv, hr]

theorem process_response_of_valid (client : OpenAIClient) (store : SessionStore)
    (sid msg : String) (s : ConversationSession)
    (h : alistGet store sid = some s) (hc : s.completed = false)
    (hv : _validate_response client msg (questionAt s.current_question_index) = true) :
    process_response client store sid msg =
      (alistInsert store sid
        (_move_to_next_question client
          { s with
            answers := alistInsert s.answers (questionAt s.current_question_index).id msg
          , retry_count := 0 }).1,
       (_move_to_next_question client
         { s with
           answers := alistInsert s.answers (questionAt s.current_question_index).id msg
         , retry_count := 0 }).2) := by
  simp [process_response, h, hc, hv]

/- Claim theorems. -/

/-- C2: once a session is completed, any further `process_response` call, for
any message, returns success, completed and the fixed acknowledgment, and
leaves the whole store (hence the session fields `answers`,
`current_question_index`, `retry_count`, `completed`) unchanged. -/
theorem completed_session_frozen (client : OpenAIClient) (store : SessionStore)
    (sid msg : String) (s : ConversationSession)
    (h : alistGet store sid = some s) (hc : s.completed = true) :
    process_response client store sid msg =
      (store,
       { success := true
       , message := "Thank you! Your fraud assessment has been completed."
       , completed := true
       , fraud_analysis := none }) :=
  process_response_of_completed client store sid msg s h hc

/-- A completed demo session used to instantiate hypotheses concretely. -/
def completedDemoSession : ConversationSession :=
  { session_id := "s1"
  , current_question_index := 4
  , answers := [("payment_recipient", "Acme Corp")]
  , retry_count := 0
  , completed := true
  , start_time := 0 }

theorem completed_session_frozen_witness :
    process_response failingClient [("s1", completedDemoSession)] "s1" "anything" =
      ([("s1", completedDemoSession)],
       { success := true
       , message := "Thank you! Your fraud assessment has been completed."
       , completed := true
       , fraud_analysis := none }) :=
  completed_session_frozen failingClient [("s1", completedDemoSession)] "s1" "anything"
    completedDemoSession (by decide) (by decide)

/-- C6: `process_response` on an unknown session id returns a failure result
carrying the "Session not found" message and leaves the store (hence every
existing session) unchanged; in the embedding the operation is a total
function, so no exception is possible. -/
theorem unknown_session_rejected (client : OpenAIClient) (store : SessionStore)
    (sid msg : String) (h : alistGet store sid = none) :
    process_response client store sid msg =
      (store,
       { success := false
       , message := "Session not found. Please refresh and start again."
       , completed := false
       , fraud_analysis := none }) :=
  process_response_of_missing client store sid msg h

theorem unknown_session_rejected_witness :
    process_response failingClient [("s1", completedDemoSession)] "ghost" "hello" =
      ([("s1", completedDemoSession)],
       { success := false
       , message := "Session not found. Please refresh and start again."
       , completed := false
       , fraud_analysis := none }) :=
  unknown_session_rejected failingClient [("s1", completedDemoSession)] "ghost" "hello"
    (by decide)

/-- C9: `start_session` unconditionally stores a fresh session (index 0, no
answers, no retries, not completed) under the given id, replacing any prior
session in any state, and returns question 0; the statement holds for every
prior store, so in particular for one that already holds a session under
`sid`, and no error path exists. -/
theorem start_session_overwrites (store : SessionStore) (sid : String) (now : Int) :
    alistGet (start_session store sid now).1 sid =
      some { session_id := sid
           , current_question_index := 0
           , answers := []
           , retry_count := 0
           , completed := false
           , start_time := now } ∧
    (start_session store sid now).2 =
      { success := true
      , message := (questionAt 0).question
      , session_id := some sid } :=
  ⟨alistGet_insert_self store sid _, rfl⟩

/-- Count of non-whitespace characters of a message — stated from the words of
the specification sentence ("shorter than 3 non-whitespace characters"), to be
compared against the implemented pre-filter. -/
def spec_nonWhitespaceCount (s : String) : Nat :=
  (s.data.filter (fun c => !c.isWhitespace)).length

/-- C7 counterexample: the message "a b" contains only 2 non-whitespace
characters, yet the implemented pre-filter measures the length after
stripping leading/trailing whitespace (3 here), so the validator is consulted
and its verdict governs: with a client answering "true" the response is
accepted, refuting the claim as stated. -/
theorem short_nonwhitespace_not_rejected :
    spec_nonWhitespaceCount "a b" < 3 ∧
    _validate_response approvingClient "a b" (questionAt 0) = true ∧
    _validate_response rejectingClient "a b" (questionAt 0) = false :=
  ⟨by decide, by decide, by decide⟩

/-- C7 (amended): for every message whose length after stripping leading and
trailing whitespace is below 3, `_validate_response` returns false for every
client, i.e. without regard to (and in the code, without invoking) the
external validator. -/
theorem strip_length_prefilter (client : OpenAIClient) (msg : String)
    (q : FraudQuestion) (h : (pythonStrip msg).length < 3) :
    _validate_response client msg q = false := by
  simp [_validate_response, h]

theorem strip_length_prefilter_witness :
    _validate_response approvingClient "ab" (questionAt 0) = false :=
  strip_length_prefilter approvingClient "ab" (questionAt 0) (by decide)

/-- C8 counterexample: the pydantic request model accepts an empty
`session_id` (the field is only required, with no minimum length), so the
call is not rejected by the transport layer: it reaches `start_session`,
which succeeds with question 0, refuting the rejection clause of the claim. -/
theorem empty_session_id_reaches_engine :
    chatStartRequest_validates (some "") = true ∧
    (start_session [] "" 0).2.success = true ∧
    (start_session [] "" 0).2.message = (questionAt 0).question :=
  ⟨rfl, rfl, rfl⟩

/-- C8 (amended): `start_session` returns a success result carrying the text
of question 0 for every session id string, including the empty one; the
transport request validation accepts every provided string. -/
theorem start_session_always_succeeds (store : SessionStore) (sid : String) (now : Int) :
    (start_session store sid now).2.success = true ∧
    (start_session store sid now).2.message = (questionAt 0).question ∧
    chatStartRequest_validates (some sid) = true :=
  ⟨rfl, rfl, rfl⟩

/-- C1: on an active session at question `i` with two retries already
recorded, a further invalid response stores the fixed placeholder under the
question id, resets `retry_count` to 0, advances the index by one, and, when
`i` was the last question (`i = 3`), the returned result is completed and
carries the risk analysis computed on the updated answers. -/
theorem retry_exhaustion_advances (client : OpenAIClient) (store : SessionStore)
    (sid msg : String) (s : ConversationSession)
    (h : alistGet store sid = some s) (hc : s.completed = false)
    (hidx : s.current_question_index < 4) (hr : s.retry_count = 2)
    (hv : _validate_response client msg (questionAt s.current_question_index) = false) :
    ∃ s', alistGet (process_response client store sid msg).1 sid = some s' ∧
      alistGet s'.answers (questionAt s.current_question_index).id =
        some "User unable to provide relevant answer after multiple attempts" ∧
      s'.retry_count = 0 ∧
      s'.current_question_index = s.current_question_index + 1 ∧
      (s.current_question_index = 3 →
        (process_response client store sid msg).2.completed = true ∧
        (process_response client store sid msg).2.fraud_analysis =
          some (_perform_fraud_analysis client
            (alistInsert s.answers (questionAt s.current_question_index).id
              "User unable to provide relevant answer after multiple attempts"))) := by
  have hr3 : 3 ≤ s.retry_count + 1 := by omega
  rw [process_response_of_invalid_exhausted client store sid msg s h hc hv hr3]
  rcases Nat.lt_or_ge (s.current_question_index + 1) 4 with hlt | hge
  · rw [move_to_next_of_lt client
      { s with
        retry_count := 0
      , answers := alistInsert s.answers (questionAt s.current_question_index).id
          "User unable to provide relevant answer after multiple attempts" } hlt]
    refine ⟨_, alistGet_insert_self _ _ _, alistGet_insert_self _ _ _, rfl, rfl, ?_⟩
    intro h3
    omega
  · rw [move_to_next_of_complete client
      { s with
        retry_count := 0
      , answers := alistInsert s.answers (questionAt s.current_question_index).id
          "User unable to provide relevant answer after multiple attempts" } hge]
    refine ⟨_, alistGet_insert_self _ _ _, alistGet_insert_self _ _ _, rfl, rfl, ?_⟩
    intro _
    exact ⟨rfl, rfl⟩

/-- An active demo session on the last question with two retries recorded. -/
def exhaustedDemoSession : ConversationSession :=
  { session_id := "s2"
  , current_question_index := 3
  , answers := [("payment_recipient", "Acme Corp")]
  , retry_count := 2
  , completed := false
  , start_time := 0 }

theorem retry_exhaustion_advances_witness :
    ∃ s', alistGet
        (process_response rejectingClient [("s2", exhaustedDemoSession)] "s2" "blah blah").1
        "s2" = some s' ∧
      alistGet s'.answers (questionAt exhaustedDemoSession.current_question_index).id =
        some "User unable to provide relevant answer after multiple attempts" ∧
      s'.retry_count = 0 ∧
      s'.current_question_index = exhaustedDemoSession.current_question_index + 1 ∧
      (exhaustedDemoSession.current_question_index = 3 →
        (process_response rejectingClient [("s2", exhaustedDemoSession)] "s2" "blah blah").2.completed = true ∧
        (process_response rejectingClient [("s2", exhaustedDemoSession)] "s2" "blah blah").2.fraud_analysis =
          some (_perform_fraud_analysis rejectingClient
            (alistInsert exhaustedDemoSession.answers
              (questionAt exhaustedDemoSession.current_question_index).id
              "User unable to provide relevant answer after multiple attempts"))) :=
  retry_exhaustion_advances rejectingClient [("s2", exhaustedDemoSession)] "s2" "blah blah"
    exhaustedDemoSession (by decide) (by decide) (by decide) (by decide) (by decide)

/-- C3: when every external call raises, a message passing the local length
pre-filter is validated as true (fail-open), and `process_response` stores the
message as the answer of the current question, resets `retry_count` and
advances the index by one — the exact effect of a valid response. -/
theorem validator_failure_fail_open (client : OpenAIClient) (store : SessionStore)
    (sid msg : String) (s : ConversationSession)
    (hfail : ∀ m p t, client.create m p t = Except.error ())
    (h : alistGet store sid = some s) (hc : s.completed = false)
    (hidx : s.current_question_index < 4)
    (hlen : 3 ≤ (pythonStrip msg).length) :
    _validate_response client msg (questionAt s.current_question_index) = true ∧
    ∃ s', alistGet (process_response client store sid msg).1 sid = some s' ∧
      s'.answers = alistInsert s.answers (questionAt s.current_question_index).id msg ∧
      s'.retry_count = 0 ∧
      s'.current_question_index = s.current_question_index + 1 ∧
      (s'.completed = true ↔ s.current_question_index = 3) := by
  have hne : (msg == "") = false := by
    cases hmsg : msg == "" with
    | false => rfl
    | true =>
        have : msg = "" := eq_of_beq hmsg
        subst this
        exact absurd hlen (by decide)
  have hnlt : ¬ ((pythonStrip msg).length < 3) := by omega
  have hv : _validate_response client msg (questionAt s.current_question_index) = true := by
    simp [_validate_response, hne, hnlt, hfail]
  refine ⟨hv, ?_⟩
  rw [process_response_of_valid client store sid msg s h hc hv]
  rcases Nat.lt_or_ge (s.current_question_index + 1) 4 with hlt | hge
  · rw [move_to_next_of_lt client
      { s with
        answers := alistInsert s.answers (questionAt s.current_question_index).id msg
      , retry_count := 0 } hlt]
    refine ⟨_, alistGet_insert_self _ _ _, rfl, rfl, rfl, ?_⟩
    show s.completed = true ↔ s.current_question_index = 3
    rw [hc]
    simp
    omega
  · rw [move_to_next_of_complete client
      { s with
        answers := alistInsert s.answers (questionAt s.current_question_index).id msg
      , retry_count := 0 } hge]
    refine ⟨_, alistGet_insert_self _ _ _, rfl, rfl, rfl, ?_⟩
    show true = true ↔ s.current_question_index = 3
    simp
    omega

/-- An active demo session on question 0 with empty answers. -/
def freshDemoSession : ConversationSession :=
  { session_id := "s3", start_time := 0 }

theorem validator_failure_fail_open_witness :
    _validate_response failingClient "John Smith" (questionAt freshDemoSession.current_question_index) = true ∧
    ∃ s', alistGet
        (process_response failingClient [("s3", freshDemoSession)] "s3" "John Smith").1
        "s3" = some s' ∧
      s'.answers = alistInsert freshDemoSession.answers
        (questionAt freshDemoSession.current_question_index).id "John Smith" ∧
      s'.retry_count = 0 ∧
      s'.current_question_index = freshDemoSession.current_question_index + 1 ∧
      (s'.completed = true ↔ freshDemoSession.current_question_index = 3) :=
  validator_failure_fail_open failingClient [("s3", freshDemoSession)] "s3" "John Smith"
    freshDemoSession (fun _ _ _ => rfl) (by decide) (by decide) (by decide) (by decide)

/-- C4: if the analysis call (the one with `max_tokens = 200`) raises, then a
`process_response` call that advances past the fourth question still returns
success and completed, and its `fraud_analysis` equals exactly the fixed
fallback string (spelled out verbatim in the last conjunct).  The advance
hypothesis covers both advancing paths: a valid response, or an invalid one
with two retries already recorded. -/
theorem analysis_failure_fallback (client : OpenAIClient) (store : SessionStore)
    (sid msg : String) (s : ConversationSession)
    (hfail : ∀ p, client.create "gpt-3.5-turbo" p 200 = Except.error ())
    (h : alistGet store sid = some s) (hc : s.completed = false)
    (hidx : s.current_question_index = 3)
    (hadv : _validate_response client msg (questionAt s.current_question_index) = true ∨
      2 ≤ s.retry_count) :
    (process_response client store sid msg).2.success = true ∧
    (process_response client store sid msg).2.completed = true ∧
    (process_response client store sid msg).2.fraud_analysis = some fraud_analysis_fallback ∧
    fraud_analysis_fallback =
      "RISK LEVEL: UNKNOWN\nANALYSIS: Unable to complete fraud analysis due to technical issues. Please verify payment details independently and consult with your bank if you have concerns." := by
  have hfb : ∀ answers, _perform_fraud_analysis client answers = fraud_analysis_fallback := by
    intro answers
    simp [_perform_fraud_analysis, hfail]
  cases hv : _validate_response client msg (questionAt s.current_question_index) with
  | true =>
      rw [process_response_of_valid client store sid msg s h hc hv,
        move_to_next_of_complete client
          { s with
            answers := alistInsert s.answers (questionAt s.current_question_index).id msg
          , retry_count := 0 }
          (show 4 ≤ s.current_question_index + 1 by omega)]
      refine ⟨rfl, rfl, ?_, rfl⟩
      rw [hfb]
  | false =>
      rcases hadv with hvt | hrc
      · rw [hv] at hvt
        simp at hvt
      · have hr3 : 3 ≤ s.retry_count + 1 := by omega
        rw [process_response_of_invalid_exhausted client store sid msg s h hc hv hr3,
          move_to_next_of_complete client
            { s with
              retry_count := 0
            , answers := alistInsert s.answers (questionAt s.current_question_index).id
                "User unable to provide relevant answer after multiple attempts" }
            (show 4 ≤ s.current_question_index + 1 by omega)]
        refine ⟨rfl, rfl, ?_, rfl⟩
        rw [hfb]

/-- An active demo session on the last question, all previous ones answered. -/
def lastQuestionDemoSession : ConversationSession :=
  { session_id := "s4"
  , current_question_index := 3
  , answers := [ ("payment_recipient", "Acme Corp")
               , ("purpose_of_payment", "web hosting invoice")
               , ("source_of_payment_link", "email from Acme billing") ]
  , retry_count := 0
  , completed := false
  , start_time := 0 }

theorem analysis_failure_fallback_witness :
    (process_response analysisFailingClient [("s4", lastQuestionDemoSession)] "s4"
        "www.example.com").2.success = true ∧
    (process_response analysisFailingClient [("s4", lastQuestionDemoSession)] "s4"
        "www.example.com").2.completed = true ∧
    (process_response analysisFailingClient [("s4", lastQuestionDemoSession)] "s4"
        "www.example.com").2.fraud_analysis = some fraud_analysis_fallback ∧
    fraud_analysis_fallback =
      "RISK LEVEL: UNKNOWN\nANALYSIS: Unable to complete fraud analysis due to technical issues. Please verify payment details independently and consult with your bank if you have concerns." :=
  analysis_failure_fallback analysisFailingClient [("s4", lastQuestionDemoSession)] "s4"
    "www.example.com" lastQuestionDemoSession (fun _ => rfl) (by decide) (by decide) (by decide)
    (Or.inl (by decide))

/-- The session invariant maintained by the engine: the index stays within
the catalog bound and the completed flag holds exactly at index 4. -/
def SessionInv (s : ConversationSession) : Prop :=
  s.current_question_index ≤ 4 ∧ (s.completed = true ↔ s.current_question_index = 4)

/-- Folding a sequence of `process_response` calls for one session id, keeping
only the store (the transcript shape of any client conversation). -/
def runMessages (client : OpenAIClient) (session_id : String) :
    SessionStore → List String → SessionStore
  | sessions, [] => sessions
  | sessions, m :: ms =>
      runMessages client session_id (process_response client sessions session_id m).1 ms

theorem move_inv (client : OpenAIClient) (u : ConversationSession)
    (hlt : u.current_question_index < 4) (hcomp : u.completed = false) :
    SessionInv (_move_to_next_question client u).1 ∧
    (_move_to_next_question client u).1.current_question_index =
      u.current_question_index + 1 := by
  rcases Nat.lt_or_ge (u.current_question_index + 1) 4 with hl | hg
  · rw [move_to_next_of_lt client u hl]
    refine ⟨⟨?_, ?_⟩, rfl⟩
    · show u.current_question_index + 1 ≤ 4
      omega
    · show u.completed = true ↔ u.current_question_index + 1 = 4
      rw [hcomp]
      simp
      omega
  · rw [move_to_next_of_complete client u hg]
    refine ⟨⟨?_, ?_⟩, rfl⟩
    · show u.current_question_index + 1 ≤ 4
      omega
    · show true = true ↔ u.current_question_index + 1 = 4
      simp
      omega

theorem step_preserves_inv (client : OpenAIClient) (store : SessionStore)
    (sid msg : String) (s : ConversationSession)
    (h : alistGet store sid = some s) (hinv : SessionInv s) :
    ∃ s', alistGet (process_response client store sid msg).1 sid = some s' ∧
      SessionInv s' ∧
      s.current_question_index ≤ s'.current_question_index ∧
      s'.current_question_index ≤ s.current_question_index + 1 := by
  obtain ⟨hle, hiff⟩ := hinv
  cases hcomp : s.completed with
  | true =>
      rw [process_response_of_completed client store sid msg s h hcomp]
      exact ⟨s, h, ⟨hle, hiff⟩, Nat.le_refl _, Nat.le_succ _⟩
  | false =>
      have hlt : s.current_question_index < 4 := by
        have hne : s.current_question_index ≠ 4 := by
          intro hx
          rw [hiff.mpr hx] at hcomp
          exact absurd hcomp (by decide)
        omega
      cases hv : _validate_response client msg (questionAt s.current_question_index) with
      | true =>
          rw [process_response_of_valid client store sid msg s h hcomp hv]
          obtain ⟨hinv1, hidx1⟩ := move_inv client
            { s with
              answers := alistInsert s.answers (questionAt s.current_question_index).id msg
            , retry_count := 0 } hlt hcomp
          refine ⟨_, alistGet_insert_self _ _ _, hinv1, ?_, ?_⟩
          · rw [hidx1]
            exact Nat.le_succ _
          · rw [hidx1]
      | false =>
          by_cases hr3 : 3 ≤ s.retry_count + 1
          · rw [process_response_of_invalid_exhausted client store sid msg s h hcomp hv hr3]
            obtain ⟨hinv1, hidx1⟩ := move_inv client
              { s with
                retry_count := 0
              , answers := alistInsert s.answers (questionAt s.current_question_index).id
                  "User unable to provide relevant answer after multiple attempts" } hlt hcomp
            refine ⟨_, alistGet_insert_self _ _ _, hinv1, ?_, ?_⟩
            · rw [hidx1]
              exact Nat.le_succ _
            · rw [hidx1]
          · have hrlt : s.retry_count + 1 < 3 := by omega
            rw [process_response_of_invalid_retry client store sid msg s h hcomp hv hrlt]
            exact ⟨_, alistGet_insert_self _ _ _, ⟨hle, hiff⟩, Nat.le_refl _, Nat.le_succ _⟩

theorem runMessages_preserves_inv (client : OpenAIClient) (sid : String) :
    ∀ (msgs : List String) (store : SessionStore) (s : ConversationSession),
      alistGet store sid = some s → SessionInv s →
      ∃ s', alistGet (runMessages client sid store msgs) sid = some s' ∧ SessionInv s' := by
  intro msgs
  induction msgs with
  | nil => intro store s h hinv; exact ⟨s, h, hinv⟩
  | cons m ms ih =>
      intro store s h hinv
      obtain ⟨s1, h1, hinv1, _, _⟩ := step_preserves_inv client store sid m s h hinv
      exact ih _ _ h1 hinv1

/-- C5: every `process_response` call keeps the session present, preserves the
invariant (index in `[0, 4]` and `completed` exactly at index 4), never
decreases the index, and increases it by at most one; and along any message
sequence started by `start_session`, the session always satisfies the
invariant.  `SessionInv` characterizes the sessions reachable by the engine,
so the quantification over invariant-satisfying sessions formalizes "for
every session, across any sequence of calls". -/
theorem session_index_monotone :
    (∀ (client : OpenAIClient) (store : SessionStore) (sid msg : String)
       (s : ConversationSession),
       alistGet store sid = some s → SessionInv s →
       ∃ s', alistGet (process_response client store sid msg).1 sid = some s' ∧
         SessionInv s' ∧
         s.current_question_index ≤ s'.current_question_index ∧
         s'.current_question_index ≤ s.current_question_index + 1) ∧
    (∀ (client : OpenAIClient) (store : SessionStore) (sid : String) (now : Int)
       (msgs : List String),
       ∃ s', alistGet (runMessages client sid (start_session store sid now).1 msgs) sid =
           some s' ∧ SessionInv s') := by
  constructor
  · exact fun client store sid msg s h hinv =>
      step_preserves_inv client store sid msg s h hinv
  · intro client store sid now msgs
    refine runMessages_preserves_inv client sid msgs _
      { session_id := sid
      , current_question_index := 0
      , answers := []
      , retry_count := 0
      , completed := false
      , start_time := now }
      (alistGet_insert_self _ _ _) ⟨Nat.zero_le _, by simp⟩

theorem session_index_monotone_witness :
    ∃ s', alistGet
        (process_response failingClient [("s3", freshDemoSession)] "s3" "John Smith").1
        "s3" = some s' ∧
      SessionInv s' ∧
      freshDemoSession.current_question_index ≤ s'.current_question_index ∧
      s'.current_question_index ≤ freshDemoSession.current_question_index + 1 :=
  session_index_monotone.1 failingClient [("s3", freshDemoSession)] "s3" "John Smith"
    freshDemoSession (by decide) ⟨by decide, by decide⟩

/-- C10: after the cleanup sweep at time `now`, a stored session strictly
older than one hour (start_time < now - 3600) is absent, and any other stored
session is still present, unmodified.  Key uniqueness of the store (automatic
for a Python dict) is assumed.  The Python method returns `None`: the only
result here is the updated store. -/
theorem cleanup_eviction (store : SessionStore) (now : Int) (sid : String)
    (s : ConversationSession) (hnd : (store.map Prod.fst).Nodup)
    (h : alistGet store sid = some s) :
    (s.start_time < now - 60 * 60 →
      alistGet (cleanup_old_sessions store now) sid = none) ∧
    (¬ s.start_time < now - 60 * 60 →
      alistGet (cleanup_old_sessions store now) sid = some s) := by
  have hchar : cleanup_old_sessions store now =
      ((store.filter (fun p => decide (p.2.start_time < now - 60 * 60))).map Prod.fst).foldl
        alistErase store := rfl
  constructor
  · intro hbad
    rw [hchar, alistGet_foldl_erase]
    rw [if_pos]
    exact List.mem_map.mpr
      ⟨(sid, s), List.mem_filter.mpr ⟨alistGet_mem h, by simpa using hbad⟩, rfl⟩
  · intro hgood
    rw [hchar, alistGet_foldl_erase]
    have hnotmem : sid ∉ (store.filter
        (fun p => decide (p.2.start_time < now - 60 * 60))).map Prod.fst := by
      intro hmem
      obtain ⟨p, hp, hfst⟩ := List.mem_map.mp hmem
      obtain ⟨pk, pv⟩ := p
      obtain ⟨hpmem, hpbad⟩ := List.mem_filter.mp hp
      cases hfst
      have hget := alistGet_of_nodup hnd hpmem
      rw [h] at hget
      obtain rfl : s = pv := by injection hget
      exact hgood (by simpa using hpbad)
    rw [if_neg hnotmem]
    exact h

/-- A demo store holding one stale and one fresh session. -/
def cleanupDemoStore : SessionStore :=
  [ ("old", { session_id := "old", start_time := 0 })
  , ("new", { session_id := "new", start_time := 4000 }) ]

theorem cleanup_eviction_witness :
    ((0 : Int) < 5000 - 60 * 60 →
      alistGet (cleanup_old_sessions cleanupDemoStore 5000) "old" = none) ∧
    (¬ (0 : Int) < 5000 - 60 * 60 →
      alistGet (cleanup_old_sessions cleanupDemoStore 5000) "old" = some
        { session_id := "old", start_time := 0 }) :=
  cleanup_eviction cleanupDemoStore 5000 "old" { session_id := "old", start_time := 0 }
    (by decide) (by decide)
